import Mathlib

/-!
Verification of the admissions AI agent's handoff saga and session utilities.

Shallow embedding of the Python sources under
`Backend/admissions-ai-agent/AgentCore/` into Lean 4:

* `tools/session_utils.py` — phone sanitization, conversation-history
  retrieval/formatting, DynamoDB session tracking;
* `tools/salesforce_tool.py` — lead search, lead-status update, task creation
  with embedded transcript (including the truncation logic);
* `tools/advisor_handoff_tool.py` — the `complete_advisor_handoff`
  orchestrator.

Python strings are modelled as `List Char` (or `String` where only equality
matters); Python `None`-able values as `Option`; a Python call that may raise
an exception is modelled by an oracle value of an `Except`-like outcome type
supplied as input, so that every possible behaviour of the external
collaborators (Salesforce, SQS, Bedrock Memory, DynamoDB) is quantified over.
All functions are total: Lean totality models the absence of uncaught
exceptions in the corresponding `try/except`-wrapped Python code.
-/

namespace AdmissionsAgent

/-! ## Phone sanitization (`session_utils.sanitize_phone_for_actor_id`) -/

/-- `re.sub(r'[^0-9]', '', s)`: keep exactly the decimal-digit characters. -/
def stripNonDigits (s : List Char) : List Char := s.filter Char.isDigit

/-- `sanitize_phone_for_actor_id` (session_utils.py lines 21-48).
`phone.startswith('+')` is the test that the first character is `'+'`
(`head? = some '+'`); `phone[1:]` is `tail`. -/
def sanitize_phone_for_actor_id (phone : List Char) : List Char :=
  if phone.head? = some '+' then '+' :: stripNonDigits phone.tail
  else stripNonDigits phone

/-- String-level wrapper used by the callers that pass `String`s around. -/
def sanitizePhoneStr (phone : String) : String :=
  String.mk (sanitize_phone_for_actor_id phone.data)

end AdmissionsAgent

namespace AdmissionsAgent

theorem stripNonDigits_idem (s : List Char) :
    stripNonDigits (stripNonDigits s) = stripNonDigits s := by
  unfold stripNonDigits
  exact List.filter_eq_self.mpr (fun c hc => (List.mem_filter.mp hc).2)

theorem stripNonDigits_all_digits (s : List Char) :
    ∀ c ∈ stripNonDigits s, Char.isDigit c := by
  intro c hc
  exact (List.mem_filter.mp hc).2

end AdmissionsAgent

/-- C5: phone normalization is deterministic (it is a pure function) and
idempotent, and its output is `'+'` followed by the digits of the remainder
when the input starts with `'+'`, otherwise exactly the input's digits. -/
theorem sanitize_phone_idempotent_and_shape (x : List Char) :
    AdmissionsAgent.sanitize_phone_for_actor_id
        (AdmissionsAgent.sanitize_phone_for_actor_id x)
      = AdmissionsAgent.sanitize_phone_for_actor_id x
    ∧ AdmissionsAgent.sanitize_phone_for_actor_id x
      = (if x.head? = some '+'
         then '+' :: AdmissionsAgent.stripNonDigits x.tail
         else AdmissionsAgent.stripNonDigits x) := by
  open AdmissionsAgent in
  refine ⟨?_, rfl⟩
  unfold sanitize_phone_for_actor_id
  by_cases h : x.head? = some '+'
  · simp only [h, if_pos, List.head?_cons, List.tail_cons, if_pos rfl]
    rw [stripNonDigits_idem]
  · simp only [h, if_neg, ite_false]
    have hhead : (stripNonDigits x).head? ≠ some '+' := by
      intro hc
      rcases List.head?_eq_some_iff.mp hc with ⟨t, ht⟩
      have : '+' ∈ stripNonDigits x := by
        rw [ht]; exact List.mem_cons_self _ _
      have := stripNonDigits_all_digits x '+' this
      simp [Char.isDigit] at this
    rw [if_neg hhead, stripNonDigits_idem]

namespace AdmissionsAgent

/-! ## Task description building and truncation
(`salesforce_tool.create_task_with_full_history`, lines 312-365) -/

/-- The `"\n\n"` that `f"{task_description}\n\n"` appends. -/
def blankLine : List Char := "\n\n".data

/-- The transcript section header prepended to a non-empty history. -/
def sectionHeader : List Char := "--- Conversation Transcript ---\n".data

/-- The marker appended after truncating to 30000 characters. -/
def truncationMarker : List Char := "\n\n[Transcript truncated]".data

/-- The combined text before the length check: `task_description` plus a blank
line, then, when `conversation_history` is non-empty (Python truthiness of a
string), the section header and the history (lines 336-340). -/
def combined_description (task_description conversation_history : List Char) :
    List Char :=
  task_description ++ blankLine ++
    (if conversation_history = [] then []
     else sectionHeader ++ conversation_history)

/-- The `Description` value actually stored on the task: the combined text,
truncated to its first 30000 characters plus `truncationMarker` when its
length exceeds 30000 (lines 343-344). Totality of this function models that
the truncation itself never throws. -/
def build_full_description (task_description conversation_history : List Char) :
    List Char :=
  let fd := combined_description task_description conversation_history
  if fd.length > 30000 then fd.take 30000 ++ truncationMarker else fd

/-! ## Conversation history reader
(`session_utils.fetch_conversation_history`, lines 51-129) -/

/-- One event returned by `bedrock.get_memory_events`: its `eventType` tag and
its `content['text']`. -/
structure MemoryEvent where
  eventType : String
  text : List Char
deriving DecidableEq

/-- The `maxResults` value passed to the store: `max_turns * 2` (line 94). -/
def requestedMaxResults (max_turns : Nat) : Nat := max_turns * 2

/-- The lines one event contributes to the transcript: a `User:` line for
`USER_INPUT`, an `Assistant:` line for `ASSISTANT_RESPONSE`, nothing for any
other tag (lines 105-114). -/
def renderEvent (e : MemoryEvent) : List (List Char) :=
  if e.eventType = "USER_INPUT" then ["User: ".data ++ e.text]
  else if e.eventType = "ASSISTANT_RESPONSE" then ["Assistant: ".data ++ e.text]
  else []

/-- An event whose role the reader recognizes. -/
def recognizedEvent (e : MemoryEvent) : Bool :=
  e.eventType = "USER_INPUT" || e.eventType = "ASSISTANT_RESPONSE"

/-- The single line a recognized event renders to. -/
def lineOfEvent (e : MemoryEvent) : List Char :=
  if e.eventType = "USER_INPUT" then "User: ".data ++ e.text
  else "Assistant: ".data ++ e.text

/-- The fixed header line `"Previous conversation:"` (line 103). -/
def historyHeader : List Char := "Previous conversation:".data

/-- Formatting of a non-error store response: empty events yield `""`
(lines 99-100), otherwise the header line and the rendered events joined by
newlines (lines 103-116). -/
def formatHistory (events : List MemoryEvent) : List Char :=
  if events = [] then []
  else List.intercalate ['\n'] (historyHeader :: events.flatMap renderEvent)

/-- Outcome of the `get_memory_events` call, as seen by the `try/except`
blocks of `fetch_conversation_history`: a normal response, a
`ResourceNotFoundException` `ClientError`, another `ClientError`, or any
other raised exception. -/
inductive StoreOutcome where
  | ok (events : List MemoryEvent)
  | notFound
  | clientError
  | raised
deriving DecidableEq

/-- `fetch_conversation_history` as a function of the store's outcome: every
error path returns the empty string (lines 118-129). -/
def fetch_conversation_history (store : StoreOutcome) : List Char :=
  match store with
  | .ok events => formatHistory events
  | .notFound => []
  | .clientError => []
  | .raised => []

end AdmissionsAgent

namespace AdmissionsAgent

theorem blankLine_length : blankLine.length = 2 := by decide

theorem sectionHeader_length : sectionHeader.length = 32 := by decide

theorem truncationMarker_length : truncationMarker.length = 24 := by decide

theorem combined_description_big_length :
    (combined_description [] (List.replicate 30000 'a')).length = 30034 := by
  have hne : (List.replicate 30000 'a' : List Char) ≠ [] := by
    rw [Ne, List.replicate_eq_nil_iff]; omega
  rw [combined_description, if_neg hne]
  simp only [List.length_append, List.length_replicate, List.length_nil,
    blankLine_length, sectionHeader_length]

theorem build_full_description_eq_of_big {d h : List Char}
    (hbig : 30000 < (combined_description d h).length) :
    build_full_description d h
      = (combined_description d h).take 30000 ++ truncationMarker := by
  unfold build_full_description
  simp only [gt_iff_lt, hbig, if_pos]

end AdmissionsAgent

/-- C1 counterexample: with an empty description and a 30000-character
transcript the combined text has 30034 characters, and the stored description
has 30024 characters — strictly more than 30000, refuting "stores a
description of at most 30,000 characters". -/
theorem stored_description_exceeds_30000 :
    30000 <
      (AdmissionsAgent.build_full_description [] (List.replicate 30000 'a')).length := by
  open AdmissionsAgent in
  have hbig : 30000 < (combined_description [] (List.replicate 30000 'a')).length := by
    rw [combined_description_big_length]; omega
  rw [build_full_description_eq_of_big hbig]
  rw [List.length_append, List.length_take, combined_description_big_length,
    truncationMarker_length]
  omega

/-- C1 (amended): the stored description has at most 30,024 characters
(30,000 plus the 24-character truncation marker); its first 30,000 characters
always equal the first 30,000 characters of the original combined text; and
whenever the combined text exceeds 30,000 characters the stored description
has exactly 30,024 characters and ends with the truncation marker. Truncation
is a total function, so it never throws. -/
theorem stored_description_truncation_correct (d h : List Char) :
    (AdmissionsAgent.build_full_description d h).length ≤ 30024
    ∧ (AdmissionsAgent.build_full_description d h).take 30000
        = (AdmissionsAgent.combined_description d h).take 30000
    ∧ (30000 < (AdmissionsAgent.combined_description d h).length →
        (AdmissionsAgent.build_full_description d h).length = 30024
        ∧ AdmissionsAgent.truncationMarker <:+
            AdmissionsAgent.build_full_description d h) := by
  open AdmissionsAgent in
  by_cases hbig : 30000 < (combined_description d h).length
  · rw [build_full_description_eq_of_big hbig]
    have htk : ((combined_description d h).take 30000).length = 30000 := by
      rw [List.length_take]; omega
    refine ⟨?_, ?_, fun _ => ⟨?_, List.suffix_append _ _⟩⟩
    · rw [List.length_append, htk, truncationMarker_length]
    · rw [List.take_append_of_le_length (by omega), List.take_take]
      simp
    · rw [List.length_append, htk, truncationMarker_length]
  · have heq : build_full_description d h = combined_description d h := by
      unfold build_full_description
      simp only [gt_iff_lt, hbig, if_neg, ite_false]
    refine ⟨?_, by rw [heq], fun hc => absurd hc hbig⟩
    rw [heq]; omega

namespace AdmissionsAgent

theorem renderEvent_eq (e : MemoryEvent) :
    renderEvent e = if recognizedEvent e then [lineOfEvent e] else [] := by
  unfold renderEvent recognizedEvent lineOfEvent
  by_cases h1 : e.eventType = "USER_INPUT" <;>
    by_cases h2 : e.eventType = "ASSISTANT_RESPONSE" <;>
      simp [h1, h2]

theorem flatMap_renderEvent_eq (events : List MemoryEvent) :
    events.flatMap renderEvent
      = (events.filter recognizedEvent).map lineOfEvent := by
  induction events with
  | nil => rfl
  | cons e es ih =>
    rw [List.flatMap_cons, renderEvent_eq, ih, List.filter_cons]
    by_cases h : recognizedEvent e <;> simp [h]

end AdmissionsAgent

/-- C9: the reader asks the store for at most `2 * max_turns` raw events;
whenever the store honours that limit, the rendered transcript body is the
recognized (user/assistant) events, in their stored order, one line each —
every unrecognized event is discarded — so it has at most `2 * max_turns`
lines, i.e. at most `max_turns` user+assistant pairs; and the result is the
fixed header followed by those lines, joined by newlines (empty when there
are no events). -/
theorem history_reader_window_order_and_filter (max_turns : Nat)
    (events : List AdmissionsAgent.MemoryEvent)
    (hlimit : events.length ≤ AdmissionsAgent.requestedMaxResults max_turns) :
    AdmissionsAgent.requestedMaxResults max_turns = 2 * max_turns
    ∧ events.flatMap AdmissionsAgent.renderEvent
        = (events.filter AdmissionsAgent.recognizedEvent).map
            AdmissionsAgent.lineOfEvent
    ∧ (events.flatMap AdmissionsAgent.renderEvent).length ≤ 2 * max_turns
    ∧ AdmissionsAgent.fetch_conversation_history (.ok events)
        = (if events = [] then []
           else List.intercalate ['\n']
             (AdmissionsAgent.historyHeader ::
               events.flatMap AdmissionsAgent.renderEvent)) := by
  open AdmissionsAgent in
  refine ⟨by rw [requestedMaxResults]; omega, ?_, ?_, rfl⟩
  · exact flatMap_renderEvent_eq events
  · rw [flatMap_renderEvent_eq, List.length_map]
    calc (events.filter recognizedEvent).length
        ≤ events.length := List.length_filter_le _ _
      _ ≤ 2 * max_turns := by
          rw [requestedMaxResults] at hlimit; omega

/-- C9 witness: a concrete store response of three events (one of them with
an unrecognized role) under `max_turns = 2`. -/
theorem history_reader_window_order_and_filter_witness :
    ([⟨"USER_INPUT", "hi".data⟩, ⟨"ASSISTANT_RESPONSE", "hello".data⟩,
        ⟨"TOOL", "x".data⟩] : List AdmissionsAgent.MemoryEvent).length
        ≤ AdmissionsAgent.requestedMaxResults 2
    ∧ (AdmissionsAgent.requestedMaxResults 2 = 2 * 2
    ∧ ([⟨"USER_INPUT", "hi".data⟩, ⟨"ASSISTANT_RESPONSE", "hello".data⟩,
        ⟨"TOOL", "x".data⟩] : List AdmissionsAgent.MemoryEvent).flatMap
          AdmissionsAgent.renderEvent
        = (([⟨"USER_INPUT", "hi".data⟩, ⟨"ASSISTANT_RESPONSE", "hello".data⟩,
        ⟨"TOOL", "x".data⟩] : List AdmissionsAgent.MemoryEvent).filter
            AdmissionsAgent.recognizedEvent).map AdmissionsAgent.lineOfEvent
    ∧ (([⟨"USER_INPUT", "hi".data⟩, ⟨"ASSISTANT_RESPONSE", "hello".data⟩,
        ⟨"TOOL", "x".data⟩] : List AdmissionsAgent.MemoryEvent).flatMap
          AdmissionsAgent.renderEvent).length ≤ 2 * 2
    ∧ AdmissionsAgent.fetch_conversation_history
        (.ok [⟨"USER_INPUT", "hi".data⟩, ⟨"ASSISTANT_RESPONSE", "hello".data⟩,
        ⟨"TOOL", "x".data⟩])
        = (if ([⟨"USER_INPUT", "hi".data⟩, ⟨"ASSISTANT_RESPONSE", "hello".data⟩,
        ⟨"TOOL", "x".data⟩] : List AdmissionsAgent.MemoryEvent) = [] then []
           else List.intercalate ['\n']
             (AdmissionsAgent.historyHeader ::
               ([⟨"USER_INPUT", "hi".data⟩, ⟨"ASSISTANT_RESPONSE", "hello".data⟩,
        ⟨"TOOL", "x".data⟩] : List AdmissionsAgent.MemoryEvent).flatMap
                 AdmissionsAgent.renderEvent))) :=
  ⟨by decide, history_reader_window_order_and_filter 2 _ (by decide)⟩

namespace AdmissionsAgent

/-! ## Salesforce helpers (`salesforce_tool.py`)

Each helper wraps its CRM calls in `try/except`; the CRM's behaviour is an
oracle value of an outcome type. The identity of a raised exception never
influences control flow (it is only logged), so raised exceptions carry no
payload. -/

/-- The record a successful lead query returns (the `SELECT`ed fields of
lines 251-258). -/
structure SFLeadRecord where
  Id : String
  FirstName : String
  LastName : String
  Email : String
  Phone : String
  Status : String
  Program_Type__c : String
  Headquarters__c : String
deriving DecidableEq

/-- The `lead_data` dict built from a record (lines 264-273). -/
structure LeadData where
  id : String
  first_name : String
  last_name : String
  email : String
  phone : String
  status : String
  program_type : String
  headquarters : String
deriving DecidableEq

/-- Outcome of the lead query inside `search_lead_by_phone`: a top record
(`totalSize > 0`, most recently modified first), no match (`totalSize = 0`),
or a raised exception (client construction, network or auth failure). -/
inductive CrmSearchOutcome where
  | found (record : SFLeadRecord)
  | empty
  | raised
deriving DecidableEq

/-- `search_lead_by_phone` (salesforce_tool.py lines 229-280) as a function
of the CRM outcome: the top record yields `(lead_id, lead_data)`; no match
yields `(None, None)` (line 276); a raised exception is caught and also
yields `(None, None)` (lines 278-280). -/
def search_lead_by_phone :
    CrmSearchOutcome → Option String × Option LeadData
  | .found r =>
      (some r.Id,
        some ⟨r.Id, r.FirstName, r.LastName, r.Email, r.Phone, r.Status,
          r.Program_Type__c, r.Headquarters__c⟩)
  | .empty => (none, none)
  | .raised => (none, none)

/-- Outcome of `sf.Lead.update` inside `update_lead_status`: an HTTP status
code, or a raised exception. -/
inductive CrmUpdateOutcome where
  | code (n : Nat)
  | raised
deriving DecidableEq

/-- `update_lead_status` (salesforce_tool.py lines 283-309): `True` exactly
when the update returned 204; every raised exception is caught and yields
`False`. -/
def update_lead_status : CrmUpdateOutcome → Bool
  | .code n => n == 204
  | .raised => false

/-- Outcome of `sf.Task.create` inside `create_task_with_full_history`: a
result dict with its `success` flag and `id`, or a raised exception. -/
inductive CrmCreateOutcome where
  | result (success : Bool) (id : String)
  | raised
deriving DecidableEq

set_option linter.unusedVariables false in
/-- `create_task_with_full_history` (salesforce_tool.py lines 312-365): the
task's `Description` is `build_full_description task_description
conversation_history`; the function returns the created task's id when the
CRM reports success, and `None` on a reported failure or a caught
exception. -/
def create_task_with_full_history
    (task_description conversation_history : List Char)
    (crm : CrmCreateOutcome) : Option String :=
  match crm with
  | .result success id => if success then some id else none
  | .raised => none

/-! ## WhatsApp dispatcher (`whatsapp_tool.send_whatsapp_message`) -/

/-- Outcome of the SQS enqueue (and configuration lookup) inside
`send_whatsapp_message`: the message was sent, the queue URL was missing
(`KeyError`), the SQS client raised a `ClientError`, or any other exception
was raised. -/
inductive SqsOutcome where
  | sent (sqs_message_id : String)
  | missingConfig
  | clientError
  | raised
deriving DecidableEq

/-- The result dict of `send_whatsapp_message`, restricted to the `status`
key — the only key the handoff orchestrator reads (line 170 of
advisor_handoff_tool.py). -/
structure SendResult where
  status : String
deriving DecidableEq

/-- `send_whatsapp_message` (whatsapp_tool.py lines 46-155): prepends `'+'`
when missing, rejects a phone of fewer than 10 characters, then reports
`"success"` exactly when the enqueue succeeded; every exception path is
caught and reports `"error"`. -/
def send_whatsapp_message (phone_number : String) (sqs : SqsOutcome) :
    SendResult :=
  let pn := if phone_number.data.head? = some '+' then phone_number
            else "+" ++ phone_number
  if pn.length < 10 then ⟨"error"⟩
  else
    match sqs with
    | .sent _ => ⟨"success"⟩
    | .missingConfig => ⟨"error"⟩
    | .clientError => ⟨"error"⟩
    | .raised => ⟨"error"⟩

end AdmissionsAgent

namespace AdmissionsAgent

/-! ## The handoff orchestrator (`advisor_handoff_tool.complete_advisor_handoff`)

The module-level `_handoff_context` entries and the outcome of every external
collaborator are gathered into a `World` value; the orchestrator is a pure
function of its arguments and the world. Besides the returned dict it yields
the ordered trace of external calls it performed, so that "step X was never
invoked" is a statement about the trace. -/

/-- Python truthiness of an optional string: `None` and `""` are falsy. -/
def pyTruthyOptStr : Option String → Bool
  | none => false
  | some s => !(s == "")

/-- Python `s[-6:]`: the last six characters (the whole string when it is
shorter). -/
def pyLastSix (s : List Char) : List Char := s.drop (s.length - 6)

/-- The `timing_text` lookup (advisor_handoff_tool.py lines 174-179):
keyed on `timing_preference.lower()`, defaulting to `"soon"`. -/
def timing_text (timing_preference : String) : String :=
  if timing_preference.toLower = "as soon as possible" then "shortly"
  else if timing_preference.toLower = "2 hours" then "in approximately 2 hours"
  else if timing_preference.toLower = "4 hours" then "in approximately 4 hours"
  else if timing_preference.toLower = "tomorrow morning" then "tomorrow morning"
  else "soon"

/-- Abort message when the module-level context is missing (lines 85-90). -/
def noContextMsg : List Char :=
  "I encountered an issue initiating the handoff. Please contact admissions@university.edu directly.".data

/-- Abort message when no lead matches; it embeds the raw phone number from
the context (line 118). -/
def noLeadMsg (phone_number : String) : List Char :=
  "I couldn\x27t find your application in our system. Please contact admissions@university.edu with your phone number ".data
    ++ phone_number.data ++ " for assistance.".data

/-- Abort message when task creation fails (lines 148-153). -/
def taskFailMsg : List Char :=
  "I had trouble creating the handoff task. Please email admissions@university.edu directly.".data

/-- Message of the top-level `except` handler (lines 208-215). -/
def exceptionMsg : List Char :=
  "I encountered an issue completing the handoff. Please contact admissions@university.edu directly for immediate assistance.".data

/-- The `task_description` f-string (line 137). -/
def task_description_of (reason timing_preference : String) : List Char :=
  "Student requested advisor handoff.\n\nReason: ".data ++ reason.data
    ++ "\n\nTiming Preference: ".data ++ timing_preference.data

/-- The `whatsapp_message` f-string (line 161). -/
def whatsapp_message_of (student_name timing_preference reason : String) :
    List Char :=
  "Hello ".data ++ student_name.data
    ++ "! A human advisor from our admissions team will contact you ".data
    ++ timing_preference.data
    ++ ". They have full context of our conversation and will help you with: ".data
    ++ reason.data

/-- The success confirmation f-string (lines 181-195). -/
def confirmation_of (task_id timing_preference reason : String) : List Char :=
  "✓ **Handoff to Human Advisor Complete**\n\nI\x27ve successfully connected you with our admissions team!\n\n**What happens next:**\n1. ✓ Your conversation has been saved and shared with an advisor\n2. ✓ A high-priority task has been assigned (Task ID: ".data
    ++ pyLastSix task_id.data
    ++ ")\n3. ✓ You\x27ll receive a WhatsApp confirmation ".data
    ++ (timing_text timing_preference).data
    ++ "\n4. ✓ An advisor will contact you ".data
    ++ (timing_text timing_preference).data
    ++ " to help with: ".data ++ reason.data
    ++ "\n\n**Your application status:** Now under active review (Status: Working)\n\nIf you need immediate assistance, you can also email admissions@university.edu or call our admissions office.\n\nThank you for your interest in our university!".data

/-- The `handoff_data` dict of a successful handoff (lines 200-205). -/
structure HandoffData where
  lead_id : String
  task_id : String
  timing_preference : String
  student_name : String
deriving DecidableEq

/-- The dict `complete_advisor_handoff` returns: its `status`, the `text`
entries of its `content` list, and its `handoff_data` when present. -/
structure ToolResult where
  status : String
  content : List (List Char)
  handoff_data : Option HandoffData
deriving DecidableEq

/-- An error return: `{"status": "error", "content": [{"text": msg}]}`. -/
def errorResult (msg : List Char) : ToolResult :=
  { status := "error", content := [msg], handoff_data := none }

/-- One external call the orchestrator performs, in program order. -/
inductive Action where
  | fetchHistory
  | searchLead (phone_number : String)
  | updateStatus (lead_id status : String)
  | createTask (lead_id : String) (description : List Char)
  | sendWhatsapp (phone_number : String) (message : List Char)
deriving DecidableEq

/-- The module-level `_handoff_context` entries together with the outcome of
every external collaborator one invocation can touch. -/
structure World where
  phone_number : Option String
  session_id : Option String
  memory_id : Option String
  memoryStore : StoreOutcome
  crmSearch : CrmSearchOutcome
  crmUpdate : CrmUpdateOutcome
  crmCreate : CrmCreateOutcome
  sqs : SqsOutcome
deriving DecidableEq

/-- `complete_advisor_handoff` (advisor_handoff_tool.py lines 40-215),
returning the result dict and the trace of external calls. Control flow, in
source order: missing context aborts with `noContextMsg` (lines 83-90);
history is fetched (its failures all yield `""`, lines 98-103); a falsy
`lead_id` aborts with `noLeadMsg` (lines 113-120); the status update's result
is only logged (lines 128-131); a falsy `task_id` aborts with `taskFailMsg`
(lines 146-153); a WhatsApp result other than `"success"` is only logged
(lines 170-171); otherwise the success dict is returned (lines 197-206).
Every helper catches its own exceptions, so the top-level `except`
(lines 208-215) is unreachable from collaborator failures. -/
def complete_advisor_handoff (reason student_name timing_preference : String)
    (w : World) : ToolResult × List Action :=
  if pyTruthyOptStr w.phone_number && pyTruthyOptStr w.session_id then
    let phone := w.phone_number.getD ""
    let conversation_history := fetch_conversation_history w.memoryStore
    let searchRes := search_lead_by_phone w.crmSearch
    if pyTruthyOptStr searchRes.1 then
      let lead_id := (searchRes.1).getD ""
      let _status_updated := update_lead_status w.crmUpdate
      let task_description := task_description_of reason timing_preference
      let descr := build_full_description task_description conversation_history
      let taskRes := create_task_with_full_history task_description
        conversation_history w.crmCreate
      if pyTruthyOptStr taskRes then
        let task_id := taskRes.getD ""
        let message := whatsapp_message_of student_name timing_preference reason
        let _whatsapp_result := send_whatsapp_message phone w.sqs
        ({ status := "success",
           content := [confirmation_of task_id timing_preference reason],
           handoff_data :=
             some ⟨lead_id, task_id, timing_preference, student_name⟩ },
         [.fetchHistory, .searchLead phone,
          .updateStatus lead_id "Working - Connected",
          .createTask lead_id descr, .sendWhatsapp phone message])
      else
        (errorResult taskFailMsg,
         [.fetchHistory, .searchLead phone,
          .updateStatus lead_id "Working - Connected",
          .createTask lead_id descr])
    else
      (errorResult (noLeadMsg phone), [.fetchHistory, .searchLead phone])
  else
    (errorResult noContextMsg, [])

end AdmissionsAgent

/-- C2 counterexample: a raised CRM exception and an absent lead give the
resolver the very same `(None, None)` result, and the orchestrator the very
same no-lead outcome — there is no distinct CRM_UNAVAILABLE condition. -/
theorem crm_failure_equals_no_lead_counterexample :
    AdmissionsAgent.search_lead_by_phone .raised
      = AdmissionsAgent.search_lead_by_phone .empty
    ∧ AdmissionsAgent.search_lead_by_phone .raised
      = (none, none)
    ∧ AdmissionsAgent.complete_advisor_handoff "reason" "Ana" "2 hours"
        { phone_number := some "+15551234567", session_id := some "s1",
          memory_id := some "m1", memoryStore := .notFound,
          crmSearch := .raised, crmUpdate := .code 204,
          crmCreate := .result true "00T000000000001", sqs := .sent "q1" }
      = AdmissionsAgent.complete_advisor_handoff "reason" "Ana" "2 hours"
        { phone_number := some "+15551234567", session_id := some "s1",
          memory_id := some "m1", memoryStore := .notFound,
          crmSearch := .empty, crmUpdate := .code 204,
          crmCreate := .result true "00T000000000001", sqs := .sent "q1" } := by
  refine ⟨rfl, rfl, ?_⟩
  decide

/-- C2 (amended): when the CRM collaborator raises during lead resolution,
`search_lead_by_phone` catches the exception and returns the same
`(None, None)` as the absent-lead result, and the orchestrator's whole
outcome (result and call trace) is identical to the absent-lead outcome: the
failure is silently treated as "no lead", with no distinct CRM_UNAVAILABLE
condition. -/
theorem crm_failure_indistinguishable_from_no_lead
    (reason student_name timing_preference : String)
    (w : AdmissionsAgent.World) :
    AdmissionsAgent.search_lead_by_phone .raised = (none, none)
    ∧ AdmissionsAgent.search_lead_by_phone .raised
        = AdmissionsAgent.search_lead_by_phone .empty
    ∧ AdmissionsAgent.complete_advisor_handoff reason student_name
        timing_preference { w with crmSearch := .raised }
      = AdmissionsAgent.complete_advisor_handoff reason student_name
        timing_preference { w with crmSearch := .empty } := by
  exact ⟨rfl, rfl, rfl⟩

/-- C6: with context present, when the lead resolver returns the absent
result the orchestrator aborts with the no-lead error whose user message
embeds the student's raw phone number, and its call trace stops after the
lead search: no follow-up task is ever created and no notification is ever
dispatched. -/
theorem no_lead_aborts_without_task_or_notification
    (reason student_name timing_preference phone sid : String)
    (w : AdmissionsAgent.World)
    (hphone : w.phone_number = some phone) (hp : phone ≠ "")
    (hsid : w.session_id = some sid) (hs : sid ≠ "")
    (hlead : AdmissionsAgent.search_lead_by_phone w.crmSearch = (none, none)) :
    AdmissionsAgent.complete_advisor_handoff reason student_name
        timing_preference w
      = (AdmissionsAgent.errorResult (AdmissionsAgent.noLeadMsg phone),
         [.fetchHistory, .searchLead phone])
    ∧ phone.data <:+: AdmissionsAgent.noLeadMsg phone
    ∧ (∀ lid d, AdmissionsAgent.Action.createTask lid d ∉
        (AdmissionsAgent.complete_advisor_handoff reason student_name
          timing_preference w).2)
    ∧ (∀ p m, AdmissionsAgent.Action.sendWhatsapp p m ∉
        (AdmissionsAgent.complete_advisor_handoff reason student_name
          timing_preference w).2) := by
  open AdmissionsAgent in
  have hres : complete_advisor_handoff reason student_name timing_preference w
      = (errorResult (noLeadMsg phone), [.fetchHistory, .searchLead phone]) := by
    simp [complete_advisor_handoff, hphone, hsid, hlead, pyTruthyOptStr, hp, hs]
  refine ⟨hres, ⟨_, _, rfl⟩, ?_, ?_⟩ <;> intro a b <;> rw [hres] <;> simp

/-- C6 witness: a concrete world whose CRM has no matching lead. -/
theorem no_lead_aborts_without_task_or_notification_witness :
    (AdmissionsAgent.World.mk (some "+15551234567") (some "s1") (some "m1")
        .notFound .empty (.code 204) (.result true "00T1") (.sent "q1")
      ).phone_number = some "+15551234567"
    ∧ "+15551234567" ≠ ""
    ∧ (AdmissionsAgent.World.mk (some "+15551234567") (some "s1") (some "m1")
        .notFound .empty (.code 204) (.result true "00T1") (.sent "q1")
      ).session_id = some "s1"
    ∧ "s1" ≠ ""
    ∧ AdmissionsAgent.search_lead_by_phone
        (AdmissionsAgent.World.mk (some "+15551234567") (some "s1") (some "m1")
          .notFound .empty (.code 204) (.result true "00T1") (.sent "q1")
        ).crmSearch = (none, none)
    ∧ (AdmissionsAgent.complete_advisor_handoff "r" "Ana" "2 hours"
          (AdmissionsAgent.World.mk (some "+15551234567") (some "s1")
            (some "m1") .notFound .empty (.code 204) (.result true "00T1")
            (.sent "q1"))
        = (AdmissionsAgent.errorResult
            (AdmissionsAgent.noLeadMsg "+15551234567"),
           [.fetchHistory, .searchLead "+15551234567"])
      ∧ ("+15551234567" : String).data <:+:
          AdmissionsAgent.noLeadMsg "+15551234567"
      ∧ (∀ lid d, AdmissionsAgent.Action.createTask lid d ∉
          (AdmissionsAgent.complete_advisor_handoff "r" "Ana" "2 hours"
            (AdmissionsAgent.World.mk (some "+15551234567") (some "s1")
              (some "m1") .notFound .empty (.code 204) (.result true "00T1")
              (.sent "q1"))).2)
      ∧ (∀ p m, AdmissionsAgent.Action.sendWhatsapp p m ∉
          (AdmissionsAgent.complete_advisor_handoff "r" "Ana" "2 hours"
            (AdmissionsAgent.World.mk (some "+15551234567") (some "s1")
              (some "m1") .notFound .empty (.code 204) (.result true "00T1")
              (.sent "q1"))).2)) :=
  ⟨rfl, by decide, rfl, by decide, rfl,
    no_lead_aborts_without_task_or_notification "r" "Ana" "2 hours"
      "+15551234567" "s1" _ rfl (by decide) rfl (by decide) rfl⟩

/-- C7: with context present and a lead found, when follow-up task creation
yields no (truthy) task id the orchestrator aborts with the
email-admissions error, and `sendWhatsapp` never appears in its call trace:
the notification dispatcher is not invoked. -/
theorem followup_failure_never_notifies
    (reason student_name timing_preference phone sid lid : String)
    (w : AdmissionsAgent.World)
    (hphone : w.phone_number = some phone) (hp : phone ≠ "")
    (hsid : w.session_id = some sid) (hs : sid ≠ "")
    (hlead : (AdmissionsAgent.search_lead_by_phone w.crmSearch).1 = some lid)
    (hl : lid ≠ "")
    (htask : AdmissionsAgent.create_task_with_full_history
        (AdmissionsAgent.task_description_of reason timing_preference)
        (AdmissionsAgent.fetch_conversation_history w.memoryStore)
        w.crmCreate = none) :
    (AdmissionsAgent.complete_advisor_handoff reason student_name
        timing_preference w).1
      = AdmissionsAgent.errorResult AdmissionsAgent.taskFailMsg
    ∧ "email admissions@university.edu".data <:+: AdmissionsAgent.taskFailMsg
    ∧ (∀ p m, AdmissionsAgent.Action.sendWhatsapp p m ∉
        (AdmissionsAgent.complete_advisor_handoff reason student_name
          timing_preference w).2) := by
  open AdmissionsAgent in
  have hres : complete_advisor_handoff reason student_name timing_preference w
      = (errorResult taskFailMsg,
         [.fetchHistory, .searchLead phone,
          .updateStatus lid "Working - Connected",
          .createTask lid
            (build_full_description
              (task_description_of reason timing_preference)
              (fetch_conversation_history w.memoryStore))]) := by
    simp [complete_advisor_handoff, hphone, hsid, hlead, htask,
      pyTruthyOptStr, hp, hs, hl]
  refine ⟨by rw [hres], ⟨"I had trouble creating the handoff task. Please ".data,
    " directly.".data, by decide⟩, ?_⟩
  intro p m
  rw [hres]
  simp

/-- C7 witness: a concrete world in which the CRM reports failure when the
task is created. -/
theorem followup_failure_never_notifies_witness :
    (AdmissionsAgent.World.mk (some "+15551234567") (some "s1") (some "m1")
        .notFound (.found ⟨"L1", "A", "B", "e", "p", "New", "PT", "HQ"⟩)
        (.code 204) .raised (.sent "q1")).phone_number = some "+15551234567"
    ∧ "+15551234567" ≠ ""
    ∧ (AdmissionsAgent.World.mk (some "+15551234567") (some "s1") (some "m1")
        .notFound (.found ⟨"L1", "A", "B", "e", "p", "New", "PT", "HQ"⟩)
        (.code 204) .raised (.sent "q1")).session_id = some "s1"
    ∧ "s1" ≠ ""
    ∧ (AdmissionsAgent.search_lead_by_phone
        (AdmissionsAgent.World.mk (some "+15551234567") (some "s1") (some "m1")
          .notFound (.found ⟨"L1", "A", "B", "e", "p", "New", "PT", "HQ"⟩)
          (.code 204) .raised (.sent "q1")).crmSearch).1 = some "L1"
    ∧ "L1" ≠ ""
    ∧ AdmissionsAgent.create_task_with_full_history
        (AdmissionsAgent.task_description_of "r" "2 hours")
        (AdmissionsAgent.fetch_conversation_history
          (AdmissionsAgent.World.mk (some "+15551234567") (some "s1")
            (some "m1") .notFound
            (.found ⟨"L1", "A", "B", "e", "p", "New", "PT", "HQ"⟩)
            (.code 204) .raised (.sent "q1")).memoryStore)
        (AdmissionsAgent.World.mk (some "+15551234567") (some "s1") (some "m1")
          .notFound (.found ⟨"L1", "A", "B", "e", "p", "New", "PT", "HQ"⟩)
          (.code 204) .raised (.sent "q1")).crmCreate = none
    ∧ ((AdmissionsAgent.complete_advisor_handoff "r" "Ana" "2 hours"
          (AdmissionsAgent.World.mk (some "+15551234567") (some "s1")
            (some "m1") .notFound
            (.found ⟨"L1", "A", "B", "e", "p", "New", "PT", "HQ"⟩)
            (.code 204) .raised (.sent "q1"))).1
        = AdmissionsAgent.errorResult AdmissionsAgent.taskFailMsg
      ∧ "email admissions@university.edu".data <:+:
          AdmissionsAgent.taskFailMsg
      ∧ (∀ p m, AdmissionsAgent.Action.sendWhatsapp p m ∉
          (AdmissionsAgent.complete_advisor_handoff "r" "Ana" "2 hours"
            (AdmissionsAgent.World.mk (some "+15551234567") (some "s1")
              (some "m1") .notFound
              (.found ⟨"L1", "A", "B", "e", "p", "New", "PT", "HQ"⟩)
              (.code 204) .raised (.sent "q1"))).2)) :=
  ⟨rfl, by decide, rfl, by decide, rfl, by decide, rfl,
    followup_failure_never_notifies "r" "Ana" "2 hours" "+15551234567" "s1"
      "L1" _ rfl (by decide) rfl (by decide) rfl (by decide) rfl⟩

set_option linter.unusedVariables false in
/-- C8: with context present, a lead found and its status mutation failing
(in particular because the underlying CRM update raised), the saga still
continues: the follow-up task is created, the notification is dispatched,
the outcome reports success — indeed the whole outcome is independent of the
status-mutation result, so its failure can never abort the saga. -/
theorem status_mutation_failure_never_aborts
    (reason student_name timing_preference phone sid lid tid : String)
    (w : AdmissionsAgent.World)
    (hphone : w.phone_number = some phone) (hp : phone ≠ "")
    (hsid : w.session_id = some sid) (hs : sid ≠ "")
    (hlead : (AdmissionsAgent.search_lead_by_phone w.crmSearch).1 = some lid)
    (hl : lid ≠ "")
    (hupd : AdmissionsAgent.update_lead_status w.crmUpdate = false)
    (htask : AdmissionsAgent.create_task_with_full_history
        (AdmissionsAgent.task_description_of reason timing_preference)
        (AdmissionsAgent.fetch_conversation_history w.memoryStore)
        w.crmCreate = some tid)
    (ht : tid ≠ "") :
    (AdmissionsAgent.complete_advisor_handoff reason student_name
        timing_preference w).1.status = "success"
    ∧ AdmissionsAgent.Action.createTask lid
        (AdmissionsAgent.build_full_description
          (AdmissionsAgent.task_description_of reason timing_preference)
          (AdmissionsAgent.fetch_conversation_history w.memoryStore))
        ∈ (AdmissionsAgent.complete_advisor_handoff reason student_name
            timing_preference w).2
    ∧ AdmissionsAgent.Action.sendWhatsapp phone
        (AdmissionsAgent.whatsapp_message_of student_name timing_preference
          reason)
        ∈ (AdmissionsAgent.complete_advisor_handoff reason student_name
            timing_preference w).2
    ∧ ∀ u, AdmissionsAgent.complete_advisor_handoff reason student_name
          timing_preference { w with crmUpdate := u }
        = AdmissionsAgent.complete_advisor_handoff reason student_name
            timing_preference w := by
  open AdmissionsAgent in
  have hres : complete_advisor_handoff reason student_name timing_preference w
      = ({ status := "success",
           content := [confirmation_of tid timing_preference reason],
           handoff_data := some ⟨lid, tid, timing_preference, student_name⟩ },
         [.fetchHistory, .searchLead phone,
          .updateStatus lid "Working - Connected",
          .createTask lid
            (build_full_description
              (task_description_of reason timing_preference)
              (fetch_conversation_history w.memoryStore)),
          .sendWhatsapp phone
            (whatsapp_message_of student_name timing_preference reason)]) := by
    simp [complete_advisor_handoff, hphone, hsid, hlead, htask,
      pyTruthyOptStr, hp, hs, hl, ht]
  refine ⟨by rw [hres], by rw [hres]; simp, by rw [hres]; simp, fun u => rfl⟩

/-- C8 witness: a concrete world whose CRM update raises while task creation
and notification succeed. -/
theorem status_mutation_failure_never_aborts_witness :
    (AdmissionsAgent.World.mk (some "+15551234567") (some "s1") (some "m1")
        .notFound (.found ⟨"L1", "A", "B", "e", "p", "New", "PT", "HQ"⟩)
        .raised (.result true "00T123") (.sent "q1")
      ).phone_number = some "+15551234567"
    ∧ "+15551234567" ≠ ""
    ∧ (AdmissionsAgent.World.mk (some "+15551234567") (some "s1") (some "m1")
        .notFound (.found ⟨"L1", "A", "B", "e", "p", "New", "PT", "HQ"⟩)
        .raised (.result true "00T123") (.sent "q1")).session_id = some "s1"
    ∧ "s1" ≠ ""
    ∧ (AdmissionsAgent.search_lead_by_phone
        (AdmissionsAgent.World.mk (some "+15551234567") (some "s1") (some "m1")
          .notFound (.found ⟨"L1", "A", "B", "e", "p", "New", "PT", "HQ"⟩)
          .raised (.result true "00T123") (.sent "q1")).crmSearch).1
        = some "L1"
    ∧ "L1" ≠ ""
    ∧ AdmissionsAgent.update_lead_status
        (AdmissionsAgent.World.mk (some "+15551234567") (some "s1") (some "m1")
          .notFound (.found ⟨"L1", "A", "B", "e", "p", "New", "PT", "HQ"⟩)
          .raised (.result true "00T123") (.sent "q1")).crmUpdate = false
    ∧ AdmissionsAgent.create_task_with_full_history
        (AdmissionsAgent.task_description_of "r" "2 hours")
        (AdmissionsAgent.fetch_conversation_history
          (AdmissionsAgent.World.mk (some "+15551234567") (some "s1")
            (some "m1") .notFound
            (.found ⟨"L1", "A", "B", "e", "p", "New", "PT", "HQ"⟩)
            .raised (.result true "00T123") (.sent "q1")).memoryStore)
        (AdmissionsAgent.World.mk (some "+15551234567") (some "s1") (some "m1")
          .notFound (.found ⟨"L1", "A", "B", "e", "p", "New", "PT", "HQ"⟩)
          .raised (.result true "00T123") (.sent "q1")).crmCreate
        = some "00T123"
    ∧ "00T123" ≠ ""
    ∧ ((AdmissionsAgent.complete_advisor_handoff "r" "Ana" "2 hours"
          (AdmissionsAgent.World.mk (some "+15551234567") (some "s1")
            (some "m1") .notFound
            (.found ⟨"L1", "A", "B", "e", "p", "New", "PT", "HQ"⟩)
            .raised (.result true "00T123") (.sent "q1"))).1.status
        = "success"
      ∧ AdmissionsAgent.Action.createTask "L1"
          (AdmissionsAgent.build_full_description
            (AdmissionsAgent.task_description_of "r" "2 hours")
            (AdmissionsAgent.fetch_conversation_history
              (AdmissionsAgent.World.mk (some "+15551234567") (some "s1")
                (some "m1") .notFound
                (.found ⟨"L1", "A", "B", "e", "p", "New", "PT", "HQ"⟩)
                .raised (.result true "00T123") (.sent "q1")).memoryStore))
          ∈ (AdmissionsAgent.complete_advisor_handoff "r" "Ana" "2 hours"
              (AdmissionsAgent.World.mk (some "+15551234567") (some "s1")
                (some "m1") .notFound
                (.found ⟨"L1", "A", "B", "e", "p", "New", "PT", "HQ"⟩)
                .raised (.result true "00T123") (.sent "q1"))).2
      ∧ AdmissionsAgent.Action.sendWhatsapp "+15551234567"
          (AdmissionsAgent.whatsapp_message_of "Ana" "2 hours" "r")
          ∈ (AdmissionsAgent.complete_advisor_handoff "r" "Ana" "2 hours"
              (AdmissionsAgent.World.mk (some "+15551234567") (some "s1")
                (some "m1") .notFound
                (.found ⟨"L1", "A", "B", "e", "p", "New", "PT", "HQ"⟩)
                .raised (.result true "00T123") (.sent "q1"))).2
      ∧ ∀ u, AdmissionsAgent.complete_advisor_handoff "r" "Ana" "2 hours"
            { AdmissionsAgent.World.mk (some "+15551234567") (some "s1")
              (some "m1") .notFound
              (.found ⟨"L1", "A", "B", "e", "p", "New", "PT", "HQ"⟩)
              .raised (.result true "00T123") (.sent "q1") with
              crmUpdate := u }
          = AdmissionsAgent.complete_advisor_handoff "r" "Ana" "2 hours"
            (AdmissionsAgent.World.mk (some "+15551234567") (some "s1")
              (some "m1") .notFound
              (.found ⟨"L1", "A", "B", "e", "p", "New", "PT", "HQ"⟩)
              .raised (.result true "00T123") (.sent "q1"))) :=
  ⟨rfl, by decide, rfl, by decide, rfl, by decide, rfl, rfl, by decide,
    status_mutation_failure_never_aborts "r" "Ana" "2 hours" "+15551234567"
      "s1" "L1" "00T123" _ rfl (by decide) rfl (by decide) rfl (by decide)
      rfl rfl (by decide)⟩

/-- C3 counterexample: in a run where task creation succeeds and the
notification dispatcher reports failure, the synthesized outcome (result
dict and call trace) is exactly equal to the outcome of the run where the
notification succeeded — so no degraded-notification flag is carried and the
caller cannot tell the two apart. -/
theorem no_degraded_notification_flag_counterexample :
    (AdmissionsAgent.send_whatsapp_message "+15551234567" .clientError).status
      ≠ "success"
    ∧ (AdmissionsAgent.complete_advisor_handoff "r" "Ana" "2 hours"
        (AdmissionsAgent.World.mk (some "+15551234567") (some "s1") (some "m1")
          .notFound (.found ⟨"L1", "A", "B", "e", "p", "New", "PT", "HQ"⟩)
          (.code 204) (.result true "00T123") .clientError)).1.status
      = "success"
    ∧ AdmissionsAgent.complete_advisor_handoff "r" "Ana" "2 hours"
        (AdmissionsAgent.World.mk (some "+15551234567") (some "s1") (some "m1")
          .notFound (.found ⟨"L1", "A", "B", "e", "p", "New", "PT", "HQ"⟩)
          (.code 204) (.result true "00T123") .clientError)
      = AdmissionsAgent.complete_advisor_handoff "r" "Ana" "2 hours"
        (AdmissionsAgent.World.mk (some "+15551234567") (some "s1") (some "m1")
          .notFound (.found ⟨"L1", "A", "B", "e", "p", "New", "PT", "HQ"⟩)
          (.code 204) (.result true "00T123") (.sent "q1")) := by
  refine ⟨by decide, by decide, rfl⟩

set_option linter.unusedVariables false in
/-- C3 (amended): when follow-up creation succeeds and the notification
dispatcher reports failure, the outcome still has `status = "success"` and
still carries the created ids in `handoff_data` (so the record's existence is
reported), but it carries no degraded-notification flag: the outcome is
identical for every notification outcome. -/
theorem notification_failure_still_success
    (reason student_name timing_preference phone sid lid tid : String)
    (w : AdmissionsAgent.World)
    (hphone : w.phone_number = some phone) (hp : phone ≠ "")
    (hsid : w.session_id = some sid) (hs : sid ≠ "")
    (hlead : (AdmissionsAgent.search_lead_by_phone w.crmSearch).1 = some lid)
    (hl : lid ≠ "")
    (htask : AdmissionsAgent.create_task_with_full_history
        (AdmissionsAgent.task_description_of reason timing_preference)
        (AdmissionsAgent.fetch_conversation_history w.memoryStore)
        w.crmCreate = some tid)
    (ht : tid ≠ "")
    (hwa : (AdmissionsAgent.send_whatsapp_message phone w.sqs).status
        ≠ "success") :
    (AdmissionsAgent.complete_advisor_handoff reason student_name
        timing_preference w).1.status = "success"
    ∧ (AdmissionsAgent.complete_advisor_handoff reason student_name
        timing_preference w).1.handoff_data
      = some ⟨lid, tid, timing_preference, student_name⟩
    ∧ ∀ sq, AdmissionsAgent.complete_advisor_handoff reason student_name
          timing_preference { w with sqs := sq }
        = AdmissionsAgent.complete_advisor_handoff reason student_name
            timing_preference w := by
  open AdmissionsAgent in
  have hres : complete_advisor_handoff reason student_name timing_preference w
      = ({ status := "success",
           content := [confirmation_of tid timing_preference reason],
           handoff_data := some ⟨lid, tid, timing_preference, student_name⟩ },
         [.fetchHistory, .searchLead phone,
          .updateStatus lid "Working - Connected",
          .createTask lid
            (build_full_description
              (task_description_of reason timing_preference)
              (fetch_conversation_history w.memoryStore)),
          .sendWhatsapp phone
            (whatsapp_message_of student_name timing_preference reason)]) := by
    simp [complete_advisor_handoff, hphone, hsid, hlead, htask,
      pyTruthyOptStr, hp, hs, hl, ht]
  exact ⟨by rw [hres], by rw [hres], fun sq => rfl⟩

/-- C3 witness: a concrete world whose SQS enqueue fails with a client error
after the task was created. -/
theorem notification_failure_still_success_witness :
    (AdmissionsAgent.World.mk (some "+15551234567") (some "s1") (some "m1")
        .notFound (.found ⟨"L1", "A", "B", "e", "p", "New", "PT", "HQ"⟩)
        (.code 204) (.result true "00T123") .clientError
      ).phone_number = some "+15551234567"
    ∧ "+15551234567" ≠ ""
    ∧ (AdmissionsAgent.World.mk (some "+15551234567") (some "s1") (some "m1")
        .notFound (.found ⟨"L1", "A", "B", "e", "p", "New", "PT", "HQ"⟩)
        (.code 204) (.result true "00T123") .clientError).session_id
      = some "s1"
    ∧ "s1" ≠ ""
    ∧ (AdmissionsAgent.search_lead_by_phone
        (AdmissionsAgent.World.mk (some "+15551234567") (some "s1") (some "m1")
          .notFound (.found ⟨"L1", "A", "B", "e", "p", "New", "PT", "HQ"⟩)
          (.code 204) (.result true "00T123") .clientError).crmSearch).1
      = some "L1"
    ∧ "L1" ≠ ""
    ∧ AdmissionsAgent.create_task_with_full_history
        (AdmissionsAgent.task_description_of "r" "2 hours")
        (AdmissionsAgent.fetch_conversation_history
          (AdmissionsAgent.World.mk (some "+15551234567") (some "s1")
            (some "m1") .notFound
            (.found ⟨"L1", "A", "B", "e", "p", "New", "PT", "HQ"⟩)
            (.code 204) (.result true "00T123") .clientError).memoryStore)
        (AdmissionsAgent.World.mk (some "+15551234567") (some "s1") (some "m1")
          .notFound (.found ⟨"L1", "A", "B", "e", "p", "New", "PT", "HQ"⟩)
          (.code 204) (.result true "00T123") .clientError).crmCreate
      = some "00T123"
    ∧ "00T123" ≠ ""
    ∧ (AdmissionsAgent.send_whatsapp_message "+15551234567"
        (AdmissionsAgent.World.mk (some "+15551234567") (some "s1") (some "m1")
          .notFound (.found ⟨"L1", "A", "B", "e", "p", "New", "PT", "HQ"⟩)
          (.code 204) (.result true "00T123") .clientError).sqs).status
      ≠ "success"
    ∧ ((AdmissionsAgent.complete_advisor_handoff "r" "Ana" "2 hours"
          (AdmissionsAgent.World.mk (some "+15551234567") (some "s1")
            (some "m1") .notFound
            (.found ⟨"L1", "A", "B", "e", "p", "New", "PT", "HQ"⟩)
            (.code 204) (.result true "00T123") .clientError)).1.status
        = "success"
      ∧ (AdmissionsAgent.complete_advisor_handoff "r" "Ana" "2 hours"
          (AdmissionsAgent.World.mk (some "+15551234567") (some "s1")
            (some "m1") .notFound
            (.found ⟨"L1", "A", "B", "e", "p", "New", "PT", "HQ"⟩)
            (.code 204) (.result true "00T123") .clientError)).1.handoff_data
        = some ⟨"L1", "00T123", "2 hours", "Ana"⟩
      ∧ ∀ sq, AdmissionsAgent.complete_advisor_handoff "r" "Ana" "2 hours"
            { AdmissionsAgent.World.mk (some "+15551234567") (some "s1")
              (some "m1") .notFound
              (.found ⟨"L1", "A", "B", "e", "p", "New", "PT", "HQ"⟩)
              (.code 204) (.result true "00T123") .clientError with
              sqs := sq }
          = AdmissionsAgent.complete_advisor_handoff "r" "Ana" "2 hours"
            (AdmissionsAgent.World.mk (some "+15551234567") (some "s1")
              (some "m1") .notFound
              (.found ⟨"L1", "A", "B", "e", "p", "New", "PT", "HQ"⟩)
              (.code 204) (.result true "00T123") .clientError)) :=
  ⟨rfl, by decide, rfl, by decide, rfl, by decide, rfl, by decide, by decide,
    notification_failure_still_success "r" "Ana" "2 hours" "+15551234567"
      "s1" "L1" "00T123" _ rfl (by decide) rfl (by decide) rfl (by decide)
      rfl (by decide) (by decide)⟩

/-- C10: for every input and every behaviour of the external collaborators —
including any of them raising an exception, which every helper catches — the
orchestrator always returns a result dict whose `status` is `"success"` or
`"error"` and whose `content` list holds exactly one user-facing text entry.
Totality of the Lean function models that no exception propagates. -/
theorem handoff_always_returns_wellformed_outcome
    (reason student_name timing_preference : String)
    (w : AdmissionsAgent.World) :
    ((AdmissionsAgent.complete_advisor_handoff reason student_name
        timing_preference w).1.status = "success"
      ∨ (AdmissionsAgent.complete_advisor_handoff reason student_name
          timing_preference w).1.status = "error")
    ∧ (AdmissionsAgent.complete_advisor_handoff reason student_name
        timing_preference w).1.content.length = 1 := by
  open AdmissionsAgent in
  by_cases h1 : (pyTruthyOptStr w.phone_number
      && pyTruthyOptStr w.session_id) = true
  · by_cases h2 : pyTruthyOptStr (search_lead_by_phone w.crmSearch).1 = true
    · by_cases h3 : pyTruthyOptStr (create_task_with_full_history
          (task_description_of reason timing_preference)
          (fetch_conversation_history w.memoryStore) w.crmCreate) = true
      · simp [complete_advisor_handoff, h1, h2, h3, errorResult]
      · simp [complete_advisor_handoff, h1, h2, h3, errorResult]
    · simp [complete_advisor_handoff, h1, h2, errorResult]
  · simp [complete_advisor_handoff, h1, errorResult]

namespace AdmissionsAgent

/-! ## Session tracking (`session_utils.py` lines 132-264)

The DynamoDB WhatsappSessions table is modelled as a write history: an item
is an attribute list whose later bindings shadow earlier ones (Python dict
update order), the table a list of keyed puts whose later puts shadow
earlier ones. `datetime.utcnow().isoformat()` is modelled by a clock-reading
parameter `now`; the `try/except` around each call is modelled by a
`dynamoOk` oracle — on a raised exception nothing is written and `False` is
returned. -/

/-- A DynamoDB item: attribute bindings, the last binding for a key
winning. -/
abbrev Item : Type := List (String × String)

/-- Dict lookup: the last binding for the key. -/
def getAttr (it : Item) (k : String) : Option String :=
  (it.reverse.find? (fun kv => kv.1 = k)).map (fun kv => kv.2)

/-- The table: a history of keyed puts, keyed by
`(phone_number, session_id)`. -/
abbrev Table : Type := List ((String × String) × Item)

/-- The current item stored under a key: the last put for it. -/
def getItem (t : Table) (k : String × String) : Option Item :=
  (t.reverse.find? (fun e => e.1 = k)).map (fun e => e.2)

/-- `table.put_item(Item=item)`: replaces the whole record for the key. -/
def put_item (t : Table) (k : String × String) (it : Item) : Table :=
  t ++ [(k, it)]

/-- `track_user_session` (session_utils.py lines 132-189): sanitizes the
phone, builds the full session item — `start_time` and `last_activity` both
set to the current clock reading, `student_name or 'Unknown'` by Python
truthiness — merges `additional_data` over it, and unconditionally
`put_item`s it, replacing any existing record for that
(phone, session) key. -/
def track_user_session (t : Table) (phone_number session_id : String)
    (student_name : Option String) (additional_data : List (String × String))
    (now : String) (dynamoOk : Bool) : Table × Bool :=
  if dynamoOk then
    let sp := sanitizePhoneStr phone_number
    let item : Item :=
      [("phone_number", sp), ("session_id", session_id),
       ("start_time", now), ("last_activity", now),
       ("student_name",
         match student_name with
         | some n => if n = "" then "Unknown" else n
         | none => "Unknown"),
       ("status", "active")] ++ additional_data
    (put_item t (sp, session_id) item, true)
  else (t, false)

/-- `update_session_activity` (session_utils.py lines 192-228): a DynamoDB
`update_item` with `SET last_activity = :timestamp`: the stored item — empty
when the key was absent — gains or overwrites exactly its `last_activity`
attribute. -/
def update_session_activity (t : Table) (phone_number session_id : String)
    (now : String) (dynamoOk : Bool) : Table × Bool :=
  if dynamoOk then
    let sp := sanitizePhoneStr phone_number
    let old := (getItem t (sp, session_id)).getD []
    (put_item t (sp, session_id) (old ++ [("last_activity", now)]), true)
  else (t, false)

theorem getItem_put_same (t : Table) (k : String × String) (it : Item) :
    getItem (put_item t k it) k = some it := by
  unfold getItem put_item
  rw [List.reverse_append]
  simp

theorem getItem_put_other (t : Table) (k k' : String × String) (it : Item)
    (h : k' ≠ k) : getItem (put_item t k it) k' = getItem t k' := by
  unfold getItem put_item
  rw [List.reverse_append]
  simp [List.find?, Ne.symm h]

theorem getAttr_append_same (it : Item) (k v : String) :
    getAttr (it ++ [(k, v)]) k = some v := by
  unfold getAttr
  rw [List.reverse_append]
  simp

theorem getAttr_append_other (it : Item) (k k' v : String) (h : k' ≠ k) :
    getAttr (it ++ [(k, v)]) k' = getAttr it k' := by
  unfold getAttr
  rw [List.reverse_append]
  simp [List.find?, Ne.symm h]

end AdmissionsAgent

/-- C4 counterexample: agent.py calls `track_user_session` on every inbound
turn; a second turn of the same session at a later clock reading replaces
the whole record, so the stored `start_time` becomes the second turn's time
— it is not unchanged by a later touch. -/
theorem session_start_time_reset_by_later_touch :
    AdmissionsAgent.getAttr
      ((AdmissionsAgent.getItem
        (AdmissionsAgent.track_user_session
          (AdmissionsAgent.track_user_session [] "+1 (555) 123-4567" "s1"
            (some "Ana") [("memory_id", "m1")] "2026-01-01T00:00:00" true).1
          "+1 (555) 123-4567" "s1" (some "Ana") [("memory_id", "m1")]
          "2026-01-01T00:05:00" true).1
        ("+15551234567", "s1")).getD [])
      "start_time" = some "2026-01-01T00:05:00"
    ∧ ("2026-01-01T00:05:00" : String) ≠ "2026-01-01T00:00:00" := by
  refine ⟨by decide, by decide⟩

/-- C4 (amended): `update_session_activity` mutates only `last_activity` —
every other attribute of the touched session and every other session record
are unchanged, and `last_activity` becomes the new clock reading — but
`track_user_session`, which the agent invokes on every turn, performs an
unconditional full put whose `start_time` is the current clock reading, so a
later touch of the same session through `track_user_session` replaces
`start_time` rather than leaving it unchanged. -/
theorem session_tracker_update_frame_and_track_reset
    (t : AdmissionsAgent.Table) (phone sid now : String) :
    (∀ attr, attr ≠ "last_activity" →
      AdmissionsAgent.getAttr
        ((AdmissionsAgent.getItem
          (AdmissionsAgent.update_session_activity t phone sid now true).1
          (AdmissionsAgent.sanitizePhoneStr phone, sid)).getD []) attr
      = AdmissionsAgent.getAttr
          ((AdmissionsAgent.getItem t
            (AdmissionsAgent.sanitizePhoneStr phone, sid)).getD []) attr)
    ∧ AdmissionsAgent.getAttr
        ((AdmissionsAgent.getItem
          (AdmissionsAgent.update_session_activity t phone sid now true).1
          (AdmissionsAgent.sanitizePhoneStr phone, sid)).getD [])
        "last_activity" = some now
    ∧ (∀ k, k ≠ (AdmissionsAgent.sanitizePhoneStr phone, sid) →
        AdmissionsAgent.getItem
          (AdmissionsAgent.update_session_activity t phone sid now true).1 k
        = AdmissionsAgent.getItem t k)
    ∧ (∀ name, AdmissionsAgent.getAttr
        ((AdmissionsAgent.getItem
          (AdmissionsAgent.track_user_session t phone sid name [] now true).1
          (AdmissionsAgent.sanitizePhoneStr phone, sid)).getD [])
        "start_time" = some now) := by
  open AdmissionsAgent in
  refine ⟨?_, ?_, ?_, ?_⟩
  · intro attr hattr
    simp only [update_session_activity, if_pos, getItem_put_same,
      Option.getD_some]
    exact getAttr_append_other _ _ _ _ hattr
  · simp only [update_session_activity, if_pos, getItem_put_same,
      Option.getD_some]
    exact getAttr_append_same _ _ _
  · intro k hk
    simp only [update_session_activity, if_pos]
    exact getItem_put_other _ _ _ _ hk
  · intro name
    simp only [track_user_session, if_pos, getItem_put_same, Option.getD_some]
    simp [getAttr, List.find?]
